import Mathlib

/-!
Verification of the natural-language specification of the tiktok-server
repository (src/server.js) against a shallow embedding of its code.

The repository is a single JavaScript file containing two concatenated
iterations of the same Express service (lines 1 to 257, called variant 1
here, and lines 258 to 415, called variant 2).  The service receives
Shopify order-creation webhooks, verifies their HMAC signature, filters
test and cancelled orders, builds a TikTok Purchase conversion event and
forwards it.

Modelling decisions, recorded once here:

* JavaScript primitive order-field values are modelled by `JsPrim`
  (integers and strings; all numeric order fields exercised by the spec
  are integers, while prices arrive as decimal strings).  A missing or
  `undefined`/`null` field is `Option.none`.
* JavaScript numbers are modelled by exact rationals.  Every numeric
  literal appearing in the specification (9.50, quantities, ids) is
  exactly representable as an IEEE double, so the rational model agrees
  with the JavaScript value on all inputs considered here.  A `none`
  result of `jsNumber` models `NaN`.
* Node library primitives that the code calls are modelled as follows:
  `crypto.createHmac(sha256, secret).update(body).digest(base64)` is an
  abstract function parameter `hmac : String → String → String`
  (secret, then raw body); `crypto.createHash(sha256)...digest(hex)` is
  an abstract parameter `sha256hex : String → String`;
  `crypto.timingSafeEqual` is `timingSafeEqualStr`, which faithfully
  throws on buffers of different byte length and otherwise compares the
  bytes — byte equality of the UTF-8 encodings of two strings is string
  equality, because UTF-8 encoding is injective.
  `crypto.createHmac` with an `undefined` key throws, modelled by the
  `Except.error` branch of the verifiers.
* Network effects (`fetch`) and `JSON.parse` results are passed to the
  embedded handlers as explicit arguments (the HTTP status, the parsed
  body, the send outcome), since they are inputs from the outside world.
* Fallible JavaScript code is embedded in `Except String`; a thrown and
  uncaught exception is an `Except.error` value.
-/

/-- A primitive JavaScript value stored in a parsed Shopify order field:
an integer (ids, quantities) or a string (skus, prices, titles). -/
inductive JsPrim where
  | num (n : Int)
  | str (s : String)
deriving DecidableEq

/-- JavaScript truthiness of a possibly-absent primitive value:
`undefined`/`null`, the number 0 and the empty string are falsy. -/
def jsTruthy : Option JsPrim → Bool
  | none => false
  | some (.num n) => decide (n ≠ 0)
  | some (.str s) => decide (s ≠ "")

/-- JavaScript `String(x)` on a possibly-absent primitive value:
`String(undefined)` is the literal string `undefined`, numbers print in
decimal, strings are returned unchanged. -/
def jsToString : Option JsPrim → String
  | none => "undefined"
  | some (.num n) => Int.repr n
  | some (.str s) => s

/-- JavaScript `a || b` on possibly-absent primitive values: `a` when
truthy, else `b` (which may itself be falsy or absent). -/
def jsOr (a b : Option JsPrim) : Option JsPrim :=
  if jsTruthy a then a else b

/-- JavaScript truthiness of a possibly-absent string. -/
def truthyStr : Option String → Bool
  | none => false
  | some s => decide (s ≠ "")

/-- JavaScript `a || b` where `a` is a possibly-absent string and `b` a
string literal, as in `order.currency || 'PKR'`. -/
def jsOrStr (a : Option String) (b : String) : String :=
  match a with
  | none => b
  | some s => if s = "" then b else s

/-- JavaScript `a || b` on two possibly-absent strings, as in
`order.customer?.email || order.email`. -/
def jsOrOpt (a b : Option String) : Option String :=
  if truthyStr a then a else b

/-- Leading- and trailing-whitespace removal on a character list;
models the JavaScript `String.prototype.trim` on the ASCII inputs this
service handles. -/
def trimChars (l : List Char) : List Char :=
  (((l.dropWhile Char.isWhitespace).reverse).dropWhile Char.isWhitespace).reverse

/-- Models `String.prototype.trim`. -/
def jsTrim (s : String) : String :=
  String.mk (trimChars s.toList)

/-- Models `String.prototype.toLowerCase`, which agrees with per-char
ASCII lowercasing on the inputs this service handles. -/
def jsToLower (s : String) : String :=
  String.mk (s.toList.map Char.toLower)

/-- Splits a character list on a separator character, keeping empty
segments, like `String.prototype.split`. -/
def splitCharsOn (sep : Char) : List Char → List (List Char)
  | [] => [[]]
  | c :: t =>
    match splitCharsOn sep t with
    | [] => if c = sep then [[], []] else [[c]]
    | h :: r => if c = sep then [] :: h :: r else (c :: h) :: r

/-- The UTF-8 byte width of one character. -/
def utf8CharSize (c : Char) : Nat :=
  if c.toNat < 128 then 1
  else if c.toNat < 2048 then 2
  else if c.toNat < 65536 then 3
  else 4

/-- The UTF-8 byte length of a string: the byte length of
`Buffer.from(s, utf8)`. -/
def utf8ByteLen (s : String) : Nat :=
  s.toList.foldl (fun a c => a + utf8CharSize c) 0

/-- The digit-list value of a list of characters; `none` when a
non-digit occurs.  Helper for the decimal fragment of `Number()`. -/
def digitsVal (l : List Char) : Option Nat :=
  l.foldl
    (fun acc c =>
      match acc with
      | none => none
      | some n => if c.isDigit then some (n * 10 + (c.toNat - 48)) else none)
    (some 0)

/-- The decimal fragment of the JavaScript `Number(string)` conversion:
an optional sign followed by digits with an optional fraction part
(`"9.50"`, `"-3."`, `".5"`).  `none` models `NaN`.  The source feeds it
only Shopify price strings, which take exactly this form; hexadecimal,
exponent and `Infinity` syntax are outside the model. -/
def jsParseDecimal (l : List Char) : Option ℚ :=
  let sgnRest : ℚ × List Char :=
    match l with
    | '+' :: t => (1, t)
    | '-' :: t => (-1, t)
    | t => (1, t)
  match splitCharsOn '.' sgnRest.2 with
  | [ip] =>
    match digitsVal ip with
    | some n => if ip.isEmpty then none else some (sgnRest.1 * n)
    | none => none
  | [ip, fp] =>
    if ip.isEmpty ∧ fp.isEmpty then none
    else
      match digitsVal ip, digitsVal fp with
      | some n, some f =>
        some (sgnRest.1 * ((n : ℚ) + (f : ℚ) / ((10 : ℚ) ^ fp.length)))
      | _, _ => none
  | _ => none

/-- JavaScript `Number(x)` on a possibly-absent primitive value:
`Number(undefined)` is `NaN` (modelled `none`), a number converts to
itself, a string is trimmed and parsed (`Number("")` is 0). -/
def jsNumber : Option JsPrim → Option ℚ
  | none => none
  | some (.num n) => some (n : ℚ)
  | some (.str s) =>
    let t := trimChars s.toList
    if t.isEmpty then some 0 else jsParseDecimal t

/-- The message of the `RangeError` thrown by `crypto.timingSafeEqual`
when its two buffers have different byte lengths. -/
def timingSafeEqualLengthError : String :=
  "Input buffers must have the same byte length"

/-- The message of the `TypeError` thrown by `crypto.createHmac` when
the key is `undefined` (the shared secret is not configured). -/
def createHmacUndefinedKeyError : String :=
  "The key argument must be of type string or an instance of Buffer"

/-- `crypto.timingSafeEqual(Buffer.from(a, utf8), Buffer.from(b, utf8))`:
throws when the byte lengths differ, otherwise compares the bytes.
Byte equality of UTF-8 encodings coincides with string equality. -/
def timingSafeEqualStr (a b : String) : Except String Bool :=
  if utf8ByteLen a = utf8ByteLen b then .ok (decide (a = b))
  else .error timingSafeEqualLengthError

/-- Variant 1 `verifyShopifyWebhook` (src/server.js lines 17 to 37).
`hmac secret rawBody` models the base64 HMAC-SHA256 digest computation.
The absent-or-empty header guard (`if (!hmacHeader) return false`) comes
first; `crypto.createHmac` throws when the secret is not configured,
before the try block, so that exception propagates; the try/catch around
`crypto.timingSafeEqual` converts a comparison throw into `false`. -/
def verifyShopifyWebhook (hmac : String → String → String)
    (secret : Option String) (rawBody : String)
    (hmacHeader : Option String) : Except String Bool :=
  match hmacHeader with
  | none => .ok false
  | some h =>
    if h = "" then .ok false
    else
      match secret with
      | none => .error createHmacUndefinedKeyError
      | some s =>
        match timingSafeEqualStr (hmac s rawBody) h with
        | .ok b => .ok b
        | .error _ => .ok false

/-- Variant 2 `verifyShopifyWebhook` (src/server.js lines 289 to 299):
same computation but with no try/catch, so a length-mismatch throw from
`crypto.timingSafeEqual` propagates to the caller. -/
def verifyShopifyWebhook2 (hmac : String → String → String)
    (secret : Option String) (rawBody : String)
    (hmacHeader : Option String) : Except String Bool :=
  match hmacHeader with
  | none => .ok false
  | some h =>
    if h = "" then .ok false
    else
      match secret with
      | none => .error createHmacUndefinedKeyError
      | some s => timingSafeEqualStr (hmac s rawBody) h

/-- `sha256Lower` (src/server.js lines 40 to 46 and 302 to 307,
identical in both variants).  `sha256hex` models
`crypto.createHash(sha256).update(x).digest(hex)`, which yields the
lowercase hex digest of its input.  The falsy guard returns `null` for
`null`/`undefined` and for the empty string. -/
def sha256Lower (sha256hex : String → String) (value : Option String) :
    Option String :=
  match value with
  | none => none
  | some s => if s = "" then none else some (sha256hex (jsToLower (jsTrim s)))

/-- A Shopify order line item, with the fields src/server.js reads.
A `none` field is absent (`undefined`) in the parsed JSON. -/
structure LineItem where
  product_id : Option JsPrim
  variant_id : Option JsPrim
  sku : Option JsPrim
  id : Option JsPrim
  title : Option String
  quantity : Option JsPrim
  price : Option JsPrim
  product_type : Option String
deriving DecidableEq

/-- A TikTok contents-array entry as built by `mapContents`. -/
structure ContentItem where
  content_id : String
  content_type : String
  content_name : Option String
  quantity : Option JsPrim
  price : Option ℚ
deriving DecidableEq

/-- The `content_id` expression
`String(item.product_id || item.variant_id || item.sku || item.id)`
(src/server.js lines 51 to 53, 77 to 79 and 312). -/
def shopifyContentId (item : LineItem) : String :=
  jsToString (jsOr (jsOr (jsOr item.product_id item.variant_id) item.sku) item.id)

/-- `mapContents` (src/server.js lines 49 to 59 and 310 to 318,
identical in both variants): `(line_items || []).map(...)`. -/
def mapContents (line_items : Option (List LineItem)) : List ContentItem :=
  (line_items.getD []).map fun item =>
    { content_id := shopifyContentId item
      content_type := "product"
      content_name := item.title
      quantity := item.quantity
      price := jsNumber item.price }

/-- A parsed Shopify order, with the fields src/server.js reads.  The
nested objects (`customer`, `billing_address`, `shipping_address`,
`client_details`) are flattened into the optional-chaining expressions
the code evaluates; a `none` field is an absent field or an absent
enclosing object. -/
structure ShopifyOrder where
  id : Option JsPrim
  total_price : Option JsPrim
  currency : Option String
  customer_email : Option String
  email : Option String
  customer_phone : Option String
  billing_address_phone : Option String
  shipping_address_phone : Option String
  line_items : Option (List LineItem)
  test : Option Bool
  cancelled_at : Option String
  financial_status : Option String
  order_status_url : Option String
  domain : Option String
  client_details_user_agent : Option String
  browser_ip : Option String
deriving DecidableEq

/-- The empty JavaScript object `{}` viewed as an order: every field
read by the code is `undefined`.  The variant 2 middleware substitutes
it when the raw body is not valid JSON. -/
def emptyShopifyOrder : ShopifyOrder :=
  { id := none, total_price := none, currency := none,
    customer_email := none, email := none, customer_phone := none,
    billing_address_phone := none, shipping_address_phone := none,
    line_items := none, test := none, cancelled_at := none,
    financial_status := none, order_status_url := none, domain := none,
    client_details_user_agent := none, browser_ip := none }

/-- The TikTok API response body fields the code inspects
(`data.code`, `data.message`). -/
structure TikTokResponse where
  code : Int
  message : String
deriving DecidableEq

/-- The ternary `x ? [x] : []` applied to an optional hash
(src/server.js lines 91 and 92, 343 and 344). -/
def truthySingleton : Option String → List String
  | none => []
  | some s => if s = "" then [] else [s]

/-- The variant 1 Purchase event payload (src/server.js lines 82 to
106), flattened: `context.page.url` becomes `page_url`, the `user`
object becomes `external_id` and `phone`, the `properties` object is
inlined. -/
structure TikTokPayload where
  event : String
  event_id : String
  event_time : Nat
  page_url : String
  external_id : List String
  phone : List String
  user_agent : String
  ip : String
  content_id : List String
  content_type : String
  contents : List ContentItem
  currency : String
  value : Option ℚ
  content_category : String
deriving DecidableEq

/-- The payload construction of variant 1 `sendTikTokPurchase`
(src/server.js lines 62 to 106).  `sha256hex` models the SHA-256 hex
digest, `now` is `Math.floor(Date.now() / 1000)` at build time. -/
def sendTikTokPurchasePayload (sha256hex : String → String)
    (order : ShopifyOrder) (pageUrl : Option String) (now : Nat) :
    TikTokPayload :=
  let eventId := jsToString order.id
  let totalValue := jsNumber order.total_price
  let currency := jsOrStr order.currency "PKR"
  let emailHashed := sha256Lower sha256hex (jsOrOpt order.customer_email order.email)
  let phoneRaw := jsOrOpt (jsOrOpt order.customer_phone order.billing_address_phone)
    order.shipping_address_phone
  let phoneHashed := sha256Lower sha256hex phoneRaw
  let contents := mapContents order.line_items
  let contentIds := (order.line_items.getD []).map shopifyContentId
  { event := "Purchase"
    event_id := eventId
    event_time := now
    page_url := jsOrStr pageUrl
      ("https://" ++ jsOrStr order.domain "gulshanefashion.com" ++ "/checkout/thank_you")
    external_id := truthySingleton emailHashed
    phone := truthySingleton phoneHashed
    user_agent := jsOrStr order.client_details_user_agent ""
    ip := jsOrStr order.browser_ip ""
    content_id := contentIds
    content_type := "product"
    contents := contents
    currency := currency
    value := totalValue
    content_category := jsOrStr ((order.line_items.getD []).head?.bind
      LineItem.product_type) "fashion" }

/-- The variant 2 Purchase event payload (src/server.js lines 335 to
352), flattened the same way; it has a `pixel_code` field, a
`timestamp` field and a `phone_number` user field, and no
root-level `content_id`, `content_type` or `content_category`. -/
structure TikTokPayloadV2 where
  pixel_code : Option String
  event : String
  event_id : String
  timestamp : Nat
  page_url : String
  external_id : List String
  phone_number : List String
  contents : List ContentItem
  currency : String
  value : Option ℚ
deriving DecidableEq

/-- The payload construction of variant 2 `sendTikTokPurchase`
(src/server.js lines 321 to 352); the email fallback to `order.email`
is absent in this variant. -/
def sendTikTokPurchasePayloadV2 (sha256hex : String → String)
    (pixelId : Option String) (order : ShopifyOrder)
    (pageUrl : Option String) (now : Nat) : TikTokPayloadV2 :=
  let eventId := jsToString order.id
  let totalValue := jsNumber order.total_price
  let currency := jsOrStr order.currency "PKR"
  let emailHashed := sha256Lower sha256hex order.customer_email
  let phoneRaw := jsOrOpt (jsOrOpt order.customer_phone order.billing_address_phone)
    order.shipping_address_phone
  let phoneHashed := sha256Lower sha256hex phoneRaw
  { pixel_code := pixelId
    event := "Purchase"
    event_id := eventId
    timestamp := now
    page_url := jsOrStr pageUrl "https://yourstore.example/checkout/thank_you"
    external_id := truthySingleton emailHashed
    phone_number := truthySingleton phoneHashed
    contents := mapContents order.line_items
    currency := currency
    value := totalValue }

/-- `resp.ok` of the Fetch API: status in the range 200 to 299. -/
def respOk (status : Nat) : Bool :=
  decide (200 ≤ status) && decide (status ≤ 299)

/-- Models `JSON.stringify` on the `{code, message}` response object as
variant 2 interpolates it into its error message (assuming a message
needing no escapes). -/
def jsonStringifyTikTokResponse (d : TikTokResponse) : String :=
  "\x7b\"code\":" ++ Int.repr d.code ++ ",\"message\":\"" ++ d.message ++ "\"\x7d"

/-- The response interpretation of variant 1 `sendTikTokPurchase`
(src/server.js lines 142 to 167), as a function of the HTTP status, the
status text, the response body text, the result of `JSON.parse` on that
text (`none` when it throws, with engine message `jsonParseError`) and
returning the resolved data or the thrown error message.  Note the
inner `try` block: the `TikTok API error` throw for a non-zero
application code is itself caught by `catch (parseError)` and rewrapped
in the `Failed to parse TikTok response:` message (lines 146 to 160);
the outer catch (lines 164 to 167) logs and rethrows unchanged. -/
def sendTikTokPurchaseInterpret (status : Nat) (statusText : String)
    (responseText : String) (parsed : Option TikTokResponse)
    (jsonParseError : String) : Except String TikTokResponse :=
  if respOk status then
    match parsed with
    | none => .error ("Failed to parse TikTok response: " ++ jsonParseError)
    | some data =>
      if data.code = 0 then .ok data
      else
        .error ("Failed to parse TikTok response: TikTok API error: " ++
          data.message ++ " (code: " ++ Int.repr data.code ++ ")")
  else
    .error ("HTTP " ++ Nat.repr status ++ ": " ++ statusText ++
      ". Response: " ++ responseText)

/-- The response interpretation of variant 2 `sendTikTokPurchase`
(src/server.js lines 368 to 372): `await resp.json()` first (its parse
failure propagates), then one combined HTTP-or-application error
check. -/
def sendTikTokPurchaseInterpret2 (status : Nat)
    (parsed : Option TikTokResponse) (jsonParseError : String) :
    Except String TikTokResponse :=
  match parsed with
  | none => .error jsonParseError
  | some data =>
    if respOk status = false ∨ data.code ≠ 0 then
      .error ("TikTok API error: " ++ Nat.repr status ++ " " ++
        jsonStringifyTikTokResponse data)
    else .ok data

/-- The observable outcome of one webhook request: the HTTP status and
body of the single response sent, and how many times
`sendTikTokPurchase` was invoked. -/
structure HandlerResult where
  status : Nat
  body : String
  sendCalls : Nat
deriving DecidableEq

/-- The post-verification part of the variant 1 orders-create handler
(src/server.js lines 187 to 220): parse, test-order filter,
cancelled-or-refunded filter, forward.  `parseResult` is the result of
`JSON.parse` on the raw body (`none` when it throws), `sendOutcome` the
result of the awaited `sendTikTokPurchase` call; a parse throw or a
send rejection reaches the catch-all and yields the 500 response. -/
def ordersCreateProcess1 (parseResult : Option ShopifyOrder)
    (sendOutcome : Except String TikTokResponse) : HandlerResult :=
  match parseResult with
  | none => ⟨500, "Error", 0⟩
  | some order =>
    if order.test = some true then ⟨200, "Ignored test order", 0⟩
    else if truthyStr order.cancelled_at ||
        decide (order.financial_status = some "refunded") then
      ⟨200, "Ignored cancelled order", 0⟩
    else
      match sendOutcome with
      | .ok _ => ⟨200, "OK", 1⟩
      | .error _ => ⟨500, "Error", 1⟩

/-- The variant 1 orders-create handler (src/server.js lines 171 to
222): HMAC verification is enforced only when `NODE_ENV` is
`production`; a throw inside `verifyShopifyWebhook` (missing secret)
reaches the catch-all and yields 500. -/
def ordersCreateHandler1 (env secret : Option String)
    (hmac : String → String → String) (rawBody : String)
    (hmacHeader : Option String) (parseResult : Option ShopifyOrder)
    (sendOutcome : Except String TikTokResponse) : HandlerResult :=
  if env = some "production" then
    match verifyShopifyWebhook hmac secret rawBody hmacHeader with
    | .error _ => ⟨500, "Error", 0⟩
    | .ok false => ⟨401, "Invalid HMAC", 0⟩
    | .ok true => ordersCreateProcess1 parseResult sendOutcome
  else ordersCreateProcess1 parseResult sendOutcome

/-- The post-verification part of the variant 2 orders-create handler
(src/server.js lines 386 to 409): test-order filter, local-development
short circuit, forward.  There is no cancelled-order filter in this
variant. -/
def ordersCreateProcess2 (env : Option String) (order : ShopifyOrder)
    (sendOutcome : Except String TikTokResponse) : HandlerResult :=
  if order.test = some true then ⟨200, "Ignored test order", 0⟩
  else if env = some "development" then ⟨200, "OK (local test)", 0⟩
  else
    match sendOutcome with
    | .ok _ => ⟨200, "OK", 1⟩
    | .error _ => ⟨500, "Error", 1⟩

/-- The variant 2 orders-create handler together with its raw-body
middleware (src/server.js lines 266 to 278 and 376 to 410).  The
middleware sets `req.body` to the parsed JSON, or to the empty object
when `JSON.parse` throws; verification uses the raw body and its throw
(missing secret, or the uncaught length mismatch of
`crypto.timingSafeEqual`) reaches the catch-all. -/
def ordersCreateHandler2 (env secret : Option String)
    (hmac : String → String → String) (rawBody : String)
    (parseResult : Option ShopifyOrder) (hmacHeader : Option String)
    (sendOutcome : Except String TikTokResponse) : HandlerResult :=
  let order := parseResult.getD emptyShopifyOrder
  if env = some "production" then
    match verifyShopifyWebhook2 hmac secret rawBody hmacHeader with
    | .error _ => ⟨500, "Error", 0⟩
    | .ok false => ⟨401, "Invalid HMAC", 0⟩
    | .ok true => ordersCreateProcess2 env order sendOutcome
  else ordersCreateProcess2 env order sendOutcome

example : jsParseDecimal "9.50".toList = some ((19 : ℚ) / 2) := by
  norm_num +decide [jsParseDecimal, splitCharsOn,
    show digitsVal ['9'] = some 9 from rfl,
    show digitsVal ['5', '0'] = some 50 from rfl]
example : jsNumber (some (.str "")) = some 0 := rfl
example : jsNumber (some (.str "abc")) = none := rfl
example : jsToLower (jsTrim "  Foo@Bar.COM ") = "foo@bar.com" := by decide
example : timingSafeEqualStr "ab" "cd" = .ok false := rfl
example : timingSafeEqualStr "ab" "c" = .error timingSafeEqualLengthError :=
  rfl

/-! ## Helper lemmas -/

/-- The decimal digit list of a natural number is never empty. -/
theorem toDigits_length_pos (b n : Nat) : 0 < (Nat.toDigits b n).length := by
  show 0 < (Nat.toDigitsCore b (n + 1) n []).length
  rw [Nat.toDigitsCore]
  split
  · simp
  · rw [Nat.toDigitsCore_lens_eq]
    exact Nat.succ_pos _

/-- The decimal representation of a natural number is never the empty
string. -/
theorem natRepr_ne_empty (n : Nat) : Nat.repr n ≠ "" := by
  intro he
  have hd : Nat.toDigits 10 n = [] := by
    have := congrArg String.data he
    simpa [Nat.repr, List.asString] using this
  have := toDigits_length_pos 10 n
  rw [hd] at this
  simp at this

/-- The decimal representation of an integer is never the empty
string. -/
theorem intRepr_ne_empty (n : Int) : Int.repr n ≠ "" := by
  cases n with
  | ofNat m => exact natRepr_ne_empty m
  | negSucc m =>
    intro he
    have := congrArg String.data he
    simp [Int.repr, String.append] at this

/-- `String(x)` of a truthy primitive value is never empty. -/
theorem jsToString_ne_empty_of_truthy (v : Option JsPrim)
    (h : jsTruthy v = true) : jsToString v ≠ "" := by
  match v with
  | none => simp [jsTruthy] at h
  | some (.num n) => exact intRepr_ne_empty n
  | some (.str s) => simpa [jsTruthy] using h

/-- Truthiness of `a || b` is the disjunction of the truthiness. -/
theorem jsTruthy_jsOr (a b : Option JsPrim) :
    jsTruthy (jsOr a b) = (jsTruthy a || jsTruthy b) := by
  unfold jsOr
  by_cases h : jsTruthy a = true
  · simp [h]
  · rw [Bool.not_eq_true] at h
    simp [h]

/-- `shopifyContentId` as a first-truthy selection. -/
theorem shopifyContentId_eq_firstTruthy (item : LineItem) :
    shopifyContentId item = jsToString
      (if jsTruthy item.product_id then item.product_id
       else if jsTruthy item.variant_id then item.variant_id
       else if jsTruthy item.sku then item.sku
       else item.id) := by
  unfold shopifyContentId jsOr
  by_cases h1 : jsTruthy item.product_id
  · simp [h1]
  · rw [Bool.not_eq_true] at h1
    by_cases h2 : jsTruthy item.variant_id
    · simp [h1, h2]
    · rw [Bool.not_eq_true] at h2
      by_cases h3 : jsTruthy item.sku
      · simp [h1, h2, h3]
      · rw [Bool.not_eq_true] at h3
        simp [h1, h2, h3]

/-! ## Claim C1 -/

/-- C1 counterexample: the claim states that `verify` returns false,
rather than propagating, when the constant-time comparison throws on
digests of mismatched lengths; but the variant 2 `verifyShopifyWebhook`
(src/server.js lines 289 to 299) has no try/catch, so at a concrete
header whose byte length differs from the computed digest the exception
propagates to the caller instead of yielding false. -/
theorem verifyShopifyWebhook2_counterexample :
    verifyShopifyWebhook2 (fun _ _ => "DD") (some "s") "body" (some "x") =
      .error timingSafeEqualLengthError := rfl

/-- C1 (amended): with a configured secret, the variant 1 `verify`
returns false when the header is absent or empty, and otherwise returns
exactly whether the header equals the computed digest, converting a
length-mismatch throw of the comparison into false; the variant 2
`verify` behaves the same except that the length-mismatch throw
propagates instead of yielding false. -/
theorem verifyShopifyWebhook_spec :
    (∀ hmac s body,
      verifyShopifyWebhook hmac (some s) body none = .ok false) ∧
    (∀ hmac s body h,
      verifyShopifyWebhook hmac (some s) body (some h) =
        if h = "" then .ok false else .ok (decide (hmac s body = h))) ∧
    (∀ hmac s body,
      verifyShopifyWebhook2 hmac (some s) body none = .ok false) ∧
    (∀ hmac s body h,
      verifyShopifyWebhook2 hmac (some s) body (some h) =
        if h = "" then .ok false
        else if utf8ByteLen (hmac s body) = utf8ByteLen h then
          .ok (decide (hmac s body = h))
        else .error timingSafeEqualLengthError) := by
  refine ⟨fun _ _ _ => rfl, ?_, fun _ _ _ => rfl, ?_⟩
  · intro hmac s body h
    by_cases he : h = ""
    · simp [verifyShopifyWebhook, he]
    · simp only [verifyShopifyWebhook, if_neg he]
      unfold timingSafeEqualStr
      by_cases hl : utf8ByteLen (hmac s body) = utf8ByteLen h
      · simp [hl]
      · have hne : hmac s body ≠ h := fun hq => hl (congrArg utf8ByteLen hq)
        simp [hl, hne]
  · intro hmac s body h
    by_cases he : h = ""
    · simp [verifyShopifyWebhook2, he]
    · simp [verifyShopifyWebhook2, timingSafeEqualStr, he]

/-! ## Claim C2 -/

/-- C2 counterexample: the claim states that a request whose body is
not valid JSON always gets a 500 response; but in variant 2 the
middleware silently replaces an unparseable body with the empty object,
so at a concrete request with an invalid body, a valid signature and a
successful forward the response is 200, and the forwarder is even
invoked once. -/
theorem ordersCreate2_invalidJson_counterexample :
    (ordersCreateHandler2 (some "production") (some "s") (fun _ _ => "D")
      "not json" none (some "D") (.ok ⟨0, "ok"⟩)).status ≠ 500 ∧
    (ordersCreateHandler2 (some "production") (some "s") (fun _ _ => "D")
      "not json" none (some "D") (.ok ⟨0, "ok"⟩)).sendCalls = 1 := by
  have h : ordersCreateHandler2 (some "production") (some "s") (fun _ _ => "D")
      "not json" none (some "D") (.ok ⟨0, "ok"⟩) = ⟨200, "OK", 1⟩ := rfl
  rw [h]
  exact ⟨by decide, rfl⟩

/-- C2 (amended): in variant 1 a request whose body is not valid JSON
gets a 500 response and no outbound call whenever signature
verification is skipped (non-production) or succeeds — in enforcing
mode a missing or invalid signature still takes the 401 path first; in
variant 2 an unparseable body is replaced by the empty object before
the handler runs, so such a request proceeds to the forward step and
its response (200 or 500) is decided by the send outcome, not by the
malformed body. -/
theorem ordersCreate_invalidJson_spec :
    (∀ env secret hmac body header send, env ≠ some "production" →
      ordersCreateHandler1 env secret hmac body header none send =
        ⟨500, "Error", 0⟩) ∧
    (∀ secret hmac body header send,
      verifyShopifyWebhook hmac secret body header = .ok true →
      ordersCreateHandler1 (some "production") secret hmac body header none send =
        ⟨500, "Error", 0⟩) ∧
    (∀ secret hmac body header d,
      ordersCreateHandler2 none secret hmac body none header (.ok d) =
        ⟨200, "OK", 1⟩) ∧
    (∀ secret hmac body header e,
      ordersCreateHandler2 none secret hmac body none header (.error e) =
        ⟨500, "Error", 1⟩) := by
  refine ⟨?_, ?_, fun _ _ _ _ _ => rfl, fun _ _ _ _ _ => rfl⟩
  · intro env secret hmac body header send henv
    simp [ordersCreateHandler1, henv, ordersCreateProcess1]
  · intro secret hmac body header send hver
    simp [ordersCreateHandler1, hver, ordersCreateProcess1]

/-- C2 witness: the amended variant 1 statement at a concrete
non-production request with an unparseable body. -/
theorem ordersCreate_invalidJson_witness :
    ordersCreateHandler1 none none (fun _ _ => "") "" none none
      (.ok ⟨0, ""⟩) = ⟨500, "Error", 0⟩ :=
  ordersCreate_invalidJson_spec.1 none none (fun _ _ => "") "" none
    (.ok ⟨0, ""⟩) (by decide)

/-! ## Claim C3 -/

/-- C3 (confirmed): once a request reaches the parse stage (signature
verification skipped or passed), an order flagged `test: true` gets a
200 response with no outbound call, in both variants; and in variant 1,
where the cancelled-order policy is implemented, an order with a truthy
`cancelled_at` or financial status `refunded` also gets a 200 response
with no outbound call. -/
theorem ordersCreate_skip_spec :
    (∀ env secret hmac body header send o,
      (env = some "production" →
        verifyShopifyWebhook hmac secret body header = .ok true) →
      o.test = some true →
      (ordersCreateHandler1 env secret hmac body header (some o) send).status = 200 ∧
      (ordersCreateHandler1 env secret hmac body header (some o) send).sendCalls = 0) ∧
    (∀ env secret hmac body header send o,
      (env = some "production" →
        verifyShopifyWebhook hmac secret body header = .ok true) →
      (truthyStr o.cancelled_at = true ∨ o.financial_status = some "refunded") →
      (ordersCreateHandler1 env secret hmac body header (some o) send).status = 200 ∧
      (ordersCreateHandler1 env secret hmac body header (some o) send).sendCalls = 0) ∧
    (∀ env secret hmac body header send o,
      (env = some "production" →
        verifyShopifyWebhook2 hmac secret body header = .ok true) →
      o.test = some true →
      (ordersCreateHandler2 env secret hmac body (some o) header send).status = 200 ∧
      (ordersCreateHandler2 env secret hmac body (some o) header send).sendCalls = 0) := by
  refine ⟨?_, ?_, ?_⟩
  · intro env secret hmac body header send o hv ht
    by_cases he : env = some "production"
    · simp [ordersCreateHandler1, he, hv he, ordersCreateProcess1, ht]
    · simp [ordersCreateHandler1, he, ordersCreateProcess1, ht]
  · intro env secret hmac body header send o hv hc
    have hp : (ordersCreateProcess1 (some o) send).status = 200 ∧
        (ordersCreateProcess1 (some o) send).sendCalls = 0 := by
      by_cases ht : o.test = some true
      · simp [ordersCreateProcess1, ht]
      · rcases hc with h | h <;> simp [ordersCreateProcess1, ht, h]
    by_cases he : env = some "production"
    · simpa [ordersCreateHandler1, he, hv he] using hp
    · simpa [ordersCreateHandler1, he] using hp
  · intro env secret hmac body header send o hv ht
    by_cases he : env = some "production"
    · simp [ordersCreateHandler2, he, hv he, ordersCreateProcess2, ht]
    · simp [ordersCreateHandler2, he, ordersCreateProcess2, ht]

/-- A parsed order that is flagged as a test order. -/
def testOnlyOrder : ShopifyOrder :=
  { emptyShopifyOrder with test := some true }

/-- C3 witness: the test-order clause of variant 1 at a concrete
non-production request whose forward outcome would be an error. -/
theorem ordersCreate_skip_witness :
    (ordersCreateHandler1 none none (fun _ _ => "") "" none
      (some testOnlyOrder) (.error "boom")).status = 200 ∧
    (ordersCreateHandler1 none none (fun _ _ => "") "" none
      (some testOnlyOrder) (.error "boom")).sendCalls = 0 :=
  ordersCreate_skip_spec.1 none none (fun _ _ => "") "" none (.error "boom")
    testOnlyOrder (fun h => by simp at h) rfl

/-! ## Claim C4 -/

/-- C4 counterexample: the claim states that a non-2xx HTTP response is
an error carrying the status code and body text; but in variant 2 the
code runs `await resp.json()` before looking at the status, so when a
non-2xx response body is not valid JSON the thrown error is the JSON
parse failure — the same error for two different statuses, carrying
neither the status code nor the body text. -/
theorem sendTikTok2_nonJson_counterexample :
    sendTikTokPurchaseInterpret2 500 none
      "Unexpected token < in JSON at position 0" =
      .error "Unexpected token < in JSON at position 0" ∧
    sendTikTokPurchaseInterpret2 418 none
      "Unexpected token < in JSON at position 0" =
      .error "Unexpected token < in JSON at position 0" := ⟨rfl, rfl⟩

/-- C4 (amended): in both variants the outcome is a success exactly
when the HTTP status is 2xx and the parsed body carries code 0; in
variant 1 a non-2xx response is an error carrying the status code and
body text, and a 2xx response with a non-zero code is an error carrying
the platform message and code (wrapped in the parse-failure label by
the enclosing try/catch); in variant 2 a parseable response that is
non-2xx or carries a non-zero code is an error carrying the status and
the stringified body, while a response whose body is not valid JSON is
an error carrying only the JSON parse failure; all are failure outcomes
to the caller. -/
theorem sendTikTok_interpret_spec :
    (∀ st stx bt p pe d,
      sendTikTokPurchaseInterpret st stx bt p pe = .ok d ↔
        respOk st = true ∧ p = some d ∧ d.code = 0) ∧
    (∀ st stx bt p pe, respOk st = false →
      sendTikTokPurchaseInterpret st stx bt p pe =
        .error ("HTTP " ++ Nat.repr st ++ ": " ++ stx ++
          ". Response: " ++ bt)) ∧
    (∀ st stx bt d pe, respOk st = true → d.code ≠ 0 →
      sendTikTokPurchaseInterpret st stx bt (some d) pe =
        .error ("Failed to parse TikTok response: TikTok API error: " ++
          d.message ++ " (code: " ++ Int.repr d.code ++ ")")) ∧
    (∀ st p pe d,
      sendTikTokPurchaseInterpret2 st p pe = .ok d ↔
        respOk st = true ∧ p = some d ∧ d.code = 0) ∧
    (∀ st d pe, respOk st = false ∨ d.code ≠ 0 →
      sendTikTokPurchaseInterpret2 st (some d) pe =
        .error ("TikTok API error: " ++ Nat.repr st ++ " " ++
          jsonStringifyTikTokResponse d)) ∧
    (∀ st pe, sendTikTokPurchaseInterpret2 st none pe = .error pe) := by
  refine ⟨?_, ?_, ?_, ?_, ?_, fun _ _ => rfl⟩
  · intro st stx bt p pe d
    constructor
    · intro h
      cases p with
      | none =>
        by_cases hok : respOk st <;>
          simp [sendTikTokPurchaseInterpret, hok] at h
      | some data =>
        by_cases hok : respOk st
        · by_cases hc : data.code = 0
          · simp [sendTikTokPurchaseInterpret, hok, hc] at h
            subst h
            exact ⟨hok, rfl, hc⟩
          · simp [sendTikTokPurchaseInterpret, hok, hc] at h
        · simp [sendTikTokPurchaseInterpret, hok] at h
    · rintro ⟨hok, rfl, hc⟩
      simp [sendTikTokPurchaseInterpret, hok, hc]
  · intro st stx bt p pe hok
    simp [sendTikTokPurchaseInterpret, hok]
  · intro st stx bt d pe hok hc
    simp [sendTikTokPurchaseInterpret, hok, hc]
  · intro st p pe d
    constructor
    · intro h
      cases p with
      | none => simp [sendTikTokPurchaseInterpret2] at h
      | some data =>
        by_cases hcond : respOk st = false ∨ data.code ≠ 0
        · simp only [sendTikTokPurchaseInterpret2, if_pos hcond] at h
          exact Except.noConfusion h
        · simp only [sendTikTokPurchaseInterpret2, if_neg hcond] at h
          cases h
          push_neg at hcond
          refine ⟨?_, rfl, hcond.2⟩
          simpa using hcond.1
    · rintro ⟨hok, rfl, hc⟩
      have hcond : ¬(respOk st = false ∨ d.code ≠ 0) := by
        push_neg
        exact ⟨by simp [hok], hc⟩
      simp only [sendTikTokPurchaseInterpret2, if_neg hcond]
  · intro st d pe hcond
    simp [sendTikTokPurchaseInterpret2, hcond]

/-- C4 witness: the variant 1 non-2xx clause at a concrete 500
response. -/
theorem sendTikTok_interpret_witness :
    sendTikTokPurchaseInterpret 500 "Internal Server Error" "oops" none "x" =
      .error ("HTTP " ++ Nat.repr 500 ++ ": " ++ "Internal Server Error" ++
        ". Response: " ++ "oops") :=
  sendTikTok_interpret_spec.2.1 500 "Internal Server Error" "oops" none "x"
    (by decide)

/-! ## Claim C5 -/

/-- C5 (confirmed): in both variants the built event_id is the
stringification of the order id, and it is a deterministic function of
the order id alone: two build calls on orders agreeing on the id yield
the same event_id, whatever their other fields, hash function, page
URL, pixel id or build time. -/
theorem eventId_spec :
    (∀ f o p now,
      (sendTikTokPurchasePayload f o p now).event_id = jsToString o.id) ∧
    (∀ f px o p now,
      (sendTikTokPurchasePayloadV2 f px o p now).event_id = jsToString o.id) ∧
    (∀ f f2 o o2 p p2 now now2, o.id = o2.id →
      (sendTikTokPurchasePayload f o p now).event_id =
        (sendTikTokPurchasePayload f2 o2 p2 now2).event_id) ∧
    (∀ f f2 px px2 o o2 p p2 now now2, o.id = o2.id →
      (sendTikTokPurchasePayloadV2 f px o p now).event_id =
        (sendTikTokPurchasePayloadV2 f2 px2 o2 p2 now2).event_id) := by
  refine ⟨fun _ _ _ _ => rfl, fun _ _ _ _ _ => rfl, ?_, ?_⟩
  · intro f f2 o o2 p p2 now now2 hid
    show jsToString o.id = jsToString o2.id
    rw [hid]
  · intro f f2 px px2 o o2 p p2 now now2 hid
    show jsToString o.id = jsToString o2.id
    rw [hid]

/-- First concrete order with id 1001. -/
def order1001a : ShopifyOrder :=
  { emptyShopifyOrder with id := some (.num 1001) }

/-- Second concrete order with id 1001, differing elsewhere. -/
def order1001b : ShopifyOrder :=
  { emptyShopifyOrder with
    id := some (.num 1001)
    currency := some "USD" }

/-- C5 witness: determinism at two concrete orders sharing id 1001 but
differing elsewhere, built with different hash functions, page URLs and
times. -/
theorem eventId_witness :
    (sendTikTokPurchasePayload (fun _ => "a") order1001a none 5).event_id =
    (sendTikTokPurchasePayload (fun _ => "b") order1001b
      (some "https://x") 99).event_id :=
  eventId_spec.2.2.1 (fun _ => "a") (fun _ => "b") order1001a order1001b
    none (some "https://x") 5 99 rfl

/-! ## Claim C6 -/

/-- C6 (confirmed): `sha256Lower` returns null for null and for the
empty string, and on a non-empty string returns the digest of the
trimmed, lowercased input — the digest itself being the abstract
SHA-256 lowercase-hex function the code calls; consequently the hashes
of a padded mixed-case address and of its normalized form agree. -/
theorem sha256Lower_spec :
    (∀ f, sha256Lower f none = none) ∧
    (∀ f, sha256Lower f (some "") = none) ∧
    (∀ f s, s ≠ "" →
      sha256Lower f (some s) = some (f (jsToLower (jsTrim s)))) ∧
    (∀ f, sha256Lower f (some "  Foo@Bar.COM ") =
      sha256Lower f (some "foo@bar.com")) := by
  refine ⟨fun _ => rfl, fun _ => rfl, ?_, ?_⟩
  · intro f s hs
    simp [sha256Lower, hs]
  · intro f
    have h1 : jsToLower (jsTrim "  Foo@Bar.COM ") = "foo@bar.com" := by decide
    have h2 : jsToLower (jsTrim "foo@bar.com") = "foo@bar.com" := by decide
    simp +decide [sha256Lower, h1, h2]

/-- C6 witness: the non-empty clause at a concrete string and the
identity digest function. -/
theorem sha256Lower_witness :
    sha256Lower (fun s => s) (some "Ab") = some "ab" := by
  rw [sha256Lower_spec.2.2.1 (fun s => s) "Ab" (by decide)]
  decide

/-! ## Claim C7 -/

/-- The ContentItem the claim asserts each line item maps to:
content_type `product`, the item title and quantity, the price
converted to a number, and the content id of the fallback chain. -/
def expectedContentItem (item : LineItem) : ContentItem :=
  { content_id := shopifyContentId item
    content_type := "product"
    content_name := item.title
    quantity := item.quantity
    price := jsNumber item.price }

/-- The concrete line item of the specification example:
`{product_id: "7", title: "T", quantity: 2, price: "9.50"}`. -/
def specLineItem : LineItem :=
  { product_id := some (.str "7")
    variant_id := none
    sku := none
    id := none
    title := some "T"
    quantity := some (.num 2)
    price := some (.str "9.50")
    product_type := none }

/-- The mapping the specification expects for `specLineItem`. -/
def specContentItem : ContentItem :=
  { content_id := "7"
    content_type := "product"
    content_name := some "T"
    quantity := some (.num 2)
    price := some ((19 : ℚ) / 2) }

/-- C7 (confirmed): `mapContents` of a null or empty list is the empty
list; each line item maps independently to a ContentItem with
content_type `product`, the item title and quantity, and the price
converted to a number; and on the concrete single-item list of the
specification it yields content_id `7`, content_type `product`,
quantity 2 and price 9.5. -/
theorem mapContents_spec :
    mapContents none = [] ∧
    mapContents (some []) = [] ∧
    (∀ item rest, mapContents (some (item :: rest)) =
      expectedContentItem item :: mapContents (some rest)) ∧
    mapContents (some [specLineItem]) = [specContentItem] := by
  have hp : jsNumber (some (.str "9.50")) = some ((19 : ℚ) / 2) := by
    norm_num +decide [jsNumber, jsParseDecimal, splitCharsOn,
      show trimChars "9.50".toList = "9.50".toList from rfl,
      show digitsVal ['9'] = some 9 from rfl,
      show digitsVal ['5', '0'] = some 50 from rfl]
  refine ⟨rfl, rfl, fun item rest => rfl, ?_⟩
  simp +decide [mapContents, specLineItem, specContentItem,
    shopifyContentId, jsOr, jsTruthy, jsToString, hp]

/-! ## Claim C8 -/

/-- A line item whose only present source field is an empty-string
id. -/
def emptyIdItem : LineItem :=
  { product_id := none
    variant_id := none
    sku := none
    id := some (.str "")
    title := none
    quantity := none
    price := none
    product_type := none }

/-- A line item with product_id 0 (present but falsy) and
variant_id 5. -/
def zeroProductItem : LineItem :=
  { product_id := some (.num 0)
    variant_id := some (.num 5)
    sku := none
    id := none
    title := none
    quantity := none
    price := none
    product_type := none }

/-- C8 counterexample: the claim states that content_id is the
stringification of the first non-null of product_id, variant_id, sku,
id and is non-empty whenever one of them is present; but the code takes
the first *truthy* value (`||`), so an item whose only present field is
the empty-string id yields the empty content_id, and an item with
product_id 0 present yields the stringification of variant_id, not of
the first non-null field. -/
theorem shopifyContentId_counterexample :
    shopifyContentId emptyIdItem = "" ∧
    shopifyContentId zeroProductItem = "5" := ⟨rfl, rfl⟩

/-- C8 (amended): the produced content_id is the stringification of the
first truthy (non-null, non-zero, non-empty) of product_id, variant_id,
sku, id — falling back to the id field when all four are falsy; it is
non-empty whenever at least one of the four is truthy, and when all
four are absent it is the literal string `undefined`. -/
theorem shopifyContentId_spec :
    (∀ item, shopifyContentId item = jsToString
      (if jsTruthy item.product_id then item.product_id
       else if jsTruthy item.variant_id then item.variant_id
       else if jsTruthy item.sku then item.sku
       else item.id)) ∧
    (∀ item, (jsTruthy item.product_id = true ∨
        jsTruthy item.variant_id = true ∨ jsTruthy item.sku = true ∨
        jsTruthy item.id = true) →
      shopifyContentId item ≠ "") ∧
    (∀ item, item.product_id = none → item.variant_id = none →
      item.sku = none → item.id = none →
      shopifyContentId item = "undefined") := by
  refine ⟨shopifyContentId_eq_firstTruthy, ?_, ?_⟩
  · intro item h
    rw [shopifyContentId_eq_firstTruthy]
    apply jsToString_ne_empty_of_truthy
    by_cases h1 : jsTruthy item.product_id = true
    · rw [if_pos h1]
      exact h1
    · rw [if_neg h1]
      by_cases h2 : jsTruthy item.variant_id = true
      · rw [if_pos h2]
        exact h2
      · rw [if_neg h2]
        by_cases h3 : jsTruthy item.sku = true
        · rw [if_pos h3]
          exact h3
        · rw [if_neg h3]
          rcases h with h | h | h | h
          · exact absurd h h1
          · exact absurd h h2
          · exact absurd h h3
          · exact h
  · intro item h1 h2 h3 h4
    simp [shopifyContentId, jsOr, h1, h2, h3, h4, jsTruthy, jsToString]

/-- A line item whose only present source field is product_id 7. -/
def productOnlyItem : LineItem :=
  { product_id := some (.num 7)
    variant_id := none
    sku := none
    id := none
    title := none
    quantity := none
    price := none
    product_type := none }

/-- C8 witness: the amended non-emptiness clause at a concrete item
with a truthy product_id. -/
theorem shopifyContentId_witness :
    shopifyContentId productOnlyItem ≠ "" :=
  shopifyContentId_spec.2.1 productOnlyItem (Or.inl (by decide))

/-! ## Claim C9 -/

/-- C9 (confirmed): for every combination of environment,
configuration, signature, parse result and send outcome — including
every exception path, which the embedding maps to the catch-all 500
response — each handler produces exactly one response, with status 200,
401 or 500, and invokes the forwarder at most once. -/
theorem ordersCreate_once_spec :
    (∀ env secret hmac body header parse send,
      ((ordersCreateHandler1 env secret hmac body header parse send).status = 200 ∨
       (ordersCreateHandler1 env secret hmac body header parse send).status = 401 ∨
       (ordersCreateHandler1 env secret hmac body header parse send).status = 500) ∧
      (ordersCreateHandler1 env secret hmac body header parse send).sendCalls ≤ 1) ∧
    (∀ env secret hmac body parse header send,
      ((ordersCreateHandler2 env secret hmac body parse header send).status = 200 ∨
       (ordersCreateHandler2 env secret hmac body parse header send).status = 401 ∨
       (ordersCreateHandler2 env secret hmac body parse header send).status = 500) ∧
      (ordersCreateHandler2 env secret hmac body parse header send).sendCalls ≤ 1) := by
  constructor
  · intro env secret hmac body header parse send
    unfold ordersCreateHandler1 ordersCreateProcess1
    repeat' split
    all_goals simp
  · intro env secret hmac body parse header send
    unfold ordersCreateHandler2 ordersCreateProcess2
    repeat' split
    all_goals try simp
    all_goals split_ifs <;> simp

/-! ## Claim C10 -/

/-- C10 counterexample: the claim states that with no configured
secret, in enforcing mode, every request carrying a signature header
gets 500 and only requests missing the header get 401; but a request
carrying the header with an empty value is caught by the falsy header
guard (`if (!hmacHeader) return false`) before the HMAC computation, so
it gets 401, not 500. -/
theorem missingSecret_counterexample :
    (ordersCreateHandler1 (some "production") none (fun _ _ => "d") "b"
      (some "") none (.error "x")).status = 401 ∧
    (ordersCreateHandler1 (some "production") none (fun _ _ => "d") "b"
      (some "") none (.error "x")).status ≠ 500 := ⟨rfl, by decide⟩

/-- C10 (amended): when the webhook secret is not configured and
`NODE_ENV` is `production`, every request carrying a non-empty
signature header gets status 500 with no outbound call — the HMAC
computation throws on the undefined key and the catch-all converts it —
and never 401; a request missing the header, or carrying it with an
empty value, gets 401. -/
theorem missingSecret_spec :
    (∀ hmac body parse send h, h ≠ "" →
      ordersCreateHandler1 (some "production") none hmac body (some h)
        parse send = ⟨500, "Error", 0⟩) ∧
    (∀ hmac body parse send,
      ordersCreateHandler1 (some "production") none hmac body none
        parse send = ⟨401, "Invalid HMAC", 0⟩) ∧
    (∀ hmac body parse send,
      ordersCreateHandler1 (some "production") none hmac body (some "")
        parse send = ⟨401, "Invalid HMAC", 0⟩) := by
  refine ⟨?_, fun _ _ _ _ => rfl, fun _ _ _ _ => rfl⟩
  intro hmac body parse send h hne
  simp [ordersCreateHandler1, verifyShopifyWebhook, hne]

/-- C10 witness: the 500 clause at a concrete non-empty header. -/
theorem missingSecret_witness :
    ordersCreateHandler1 (some "production") none (fun _ _ => "d") "b"
      (some "x") none (.error "e") = ⟨500, "Error", 0⟩ :=
  missingSecret_spec.1 (fun _ _ => "d") "b" none (.error "e") "x" (by decide)
